import Mathlib

/-!
Verification of the `containerized` command-line tool.

This file gives a shallow embedding of the two Python modules
`containerized/__main__.py` and `buildcontainer_tool/__main__.py` and proves
or refutes the specification claims about them.  External effects (the
filesystem, the `podman` subprocesses) are abstracted as explicit inputs: a
build invocation is characterised by the line stream the subprocess produces
and its exit status, an inspect invocation by its parsed result, and so on.
Printed text and spawned subprocesses are recorded as an ordered event list.
-/

/-! ## Python string primitives used by the source -/

/-- Python `str.startswith`: the pattern is a prefix of the string. -/
def pyStartswith (s pat : String) : Bool :=
  pat.data.isPrefixOf s.data

/-- Substring search over character lists, used to model the Python `in`
operator on strings. -/
def hasSub (pat : List Char) : List Char → Bool
  | [] => pat.isEmpty
  | c :: rest => pat.isPrefixOf (c :: rest) || hasSub pat rest

/-- Python `pat in s` for strings: substring containment. -/
def pyIn (pat s : String) : Bool :=
  hasSub pat.data s.data

/-- The ASCII whitespace characters removed by Python `str.strip` (the lines
stripped by the source always end in a newline, so the ASCII set is exact for
the inputs that occur). -/
def isPySpace (c : Char) : Bool :=
  c = ' ' || c = '\t' || c = '\n' || c = '\r' || c = '\x0b' || c = '\x0c'

/-- Python `str.strip()`: drop whitespace from both ends. -/
def pyStrip (s : String) : String :=
  String.mk (((s.data.dropWhile isPySpace).reverse.dropWhile isPySpace).reverse)

/-- Python `str.islower()` applied to a single character, as used by
`is_valid_basename`.  Python's predicate is Unicode-aware; this model is
exact on all code points up to U+00FF (Basic Latin plus the Latin-1
Supplement, where the lowercase characters are a-z, U+00AA, U+00B5, U+00BA,
U+00DF-U+00F6 and U+00F8-U+00FF) and returns false above that range, so
theorems quantifying over arbitrary strings restrict to that range. -/
def pyIslower (c : Char) : Bool :=
  decide ((0x61 ≤ c.toNat ∧ c.toNat ≤ 0x7A) ∨ c.toNat = 0xAA ∨ c.toNat = 0xB5 ∨
    c.toNat = 0xBA ∨ (0xDF ≤ c.toNat ∧ c.toNat ≤ 0xF6) ∨
    (0xF8 ≤ c.toNat ∧ c.toNat ≤ 0xFF))

/-- Python `str.isdigit()` applied to a single character.  Exact on all code
points up to U+00FF (the digits there are 0-9 and the superscripts U+00B2,
U+00B3, U+00B9); false above that range. -/
def pyIsdigit (c : Char) : Bool :=
  decide ((0x30 ≤ c.toNat ∧ c.toNat ≤ 0x39) ∨ c.toNat = 0xB2 ∨ c.toNat = 0xB3 ∨
    c.toNat = 0xB9)

/-- Python `os.path.join(a, b)` for the shapes that occur in the source:
an absolute second component replaces the first, otherwise the components are
joined with a single separator. -/
def path_join (a b : String) : String :=
  if pyStartswith b "/" then b
  else if a = "" then b
  else if a.endsWith "/" then a ++ b
  else a ++ "/" ++ b

/-- Python `s.split(sep, 1)` specialised to `sep = '='`, returning the parts
before and after the first `'='` when one exists. -/
def splitOnceEq : List Char → Option (List Char × List Char)
  | [] => none
  | c :: rest =>
    if c = '=' then some ([], rest)
    else
      match splitOnceEq rest with
      | some (a, b) => some (c :: a, b)
      | none => none

/-! ## `containerized/__main__.py`: name validation and image naming -/

/-- Function `is_valid_basename` from `containerized/__main__.py`: length between 1 and
128, and every character satisfies `char.islower() or char.isdigit() or char
in '-.'`. -/
def is_valid_basename (base_name : String) : Bool :=
  if !(1 ≤ base_name.length && base_name.length ≤ 128) then false
  else base_name.data.all (fun c => pyIslower c || pyIsdigit c || c = '-' || c = '.')

/-- The specification's naming rule, written from the spec's words: the string
matches the regular expression `[a-z0-9.-]` repeated 1 to 128 times. -/
def specNameRule (s : String) : Bool :=
  1 ≤ s.length && s.length ≤ 128 &&
    s.data.all (fun c =>
      (0x61 ≤ c.toNat && c.toNat ≤ 0x7A) || (0x30 ≤ c.toNat && c.toNat ≤ 0x39) ||
        c = '.' || c = '-')

/-- Function `get_image_name` from `containerized/__main__.py`. -/
def get_image_name (base_name : String) : String :=
  base_name ++ ":latest"

namespace BuildTool

/-- Function `get_image_name` from `buildcontainer_tool/__main__.py`, which prepends
`build_` to the base name. -/
def get_image_name (base_name : String) : String :=
  "build_" ++ base_name ++ ":latest"

end BuildTool

/-- Function `find_containerfile` from `containerized/__main__.py`.  The filesystem is
abstracted by the `fileExists` predicate; a raised exception becomes an
`Except.error` carrying the exception's message. -/
def find_containerfile (fileExists : String → Bool) (directory base_name : String) :
    Except String String :=
  if !is_valid_basename base_name then
    Except.error ("Invalid base name: \x27" ++ base_name ++
      "\x27. Must only contain lowercase letters, digits, dashes, and periods.")
  else
    let containerfile_path := path_join directory (base_name ++ ".Containerfile")
    if fileExists containerfile_path then Except.ok containerfile_path
    else Except.error (base_name ++ ".Containerfile not found in " ++ directory)

/-! ## The build-log cache-skip heuristic -/

/-- An observable event of the tool: a `print` call's payload (including the
trailing newline that `print` appends by default, and nothing when the call
passes an empty `end`), or the argument vector of a spawned subprocess. -/
inductive Event where
  | out (s : String)
  | exec (argv : List String)
deriving DecidableEq

/-- The break test of the scanning loop in `build_podman_image`, evaluated at
one incoming line given the `step` value carried over from the previous
iteration (`none` models Python `None`; the stored string is checked for
truthiness exactly as `if step:` does). -/
def scanBreak (step : Option String) (line : String) : Bool :=
  match step with
  | none => false
  | some s =>
    if s.data.isEmpty then false
    else if !pyIn "--> Using cache" line && !pyStartswith s "STEP 1/" then true
    else if pyStartswith s "STEP 1/" && !pyStartswith line "STEP" then true
    else false

/-- The `step` update at the end of each loop iteration: a line beginning with
`STEP` becomes the new (stripped) marker, any other line clears it. -/
def scanStep (_step : Option String) (line : String) : Option String :=
  if pyStartswith line "STEP" then some (pyStrip line) else none

/-- The scanning loop of `build_podman_image`: starting from a `step` state it
consumes lines until the break condition fires or the stream ends, returning
the lines appended to `full_output`, the final `cache_used` flag, and the
lines left unconsumed in the stream. -/
def scanFrom : Option String → List String → List String × Bool × List String
  | _, [] => ([], true, [])
  | step, line :: rest =>
    if scanBreak step line then ([line], false, rest)
    else
      let r := scanFrom (scanStep step line) rest
      (line :: r.1, r.2.1, r.2.2)

/-- Function `build_podman_image` from `containerized/__main__.py`.  The subprocess is
abstracted by its output line stream `log` and its exit status `returncode`;
the result records the emitted events and either normal return or the raised
`RuntimeError`'s message. -/
def build_podman_image (containerfile_path context_directory image_name : String)
    (log : List String) (returncode : Int) : List Event × Except String Unit :=
  let build_command :=
    ["podman", "build", "-f", containerfile_path, "-t", image_name, context_directory]
  let r := scanFrom none log
  let full_output := r.1
  let cache_used := r.2.1
  let streamed := r.2.2
  let branch : List Event :=
    if !cache_used then
      Event.out ("Building image from " ++ containerfile_path ++ " as " ++
          image_name ++ ":\n") ::
        Event.out (String.join full_output) :: streamed.map Event.out
    else
      [Event.out ("Nothing to do to build image " ++ image_name ++
        ". Using cached version.\n")]
  if returncode = 0 then
    (Event.exec build_command :: branch, Except.ok ())
  else
    (Event.exec build_command :: branch ++ full_output.map Event.out,
      Except.error ("Failed to build image " ++ image_name ++ "."))

/-! ## `get_shell_env`: image-metadata probing

`podman inspect` output is abstracted as either a subprocess failure (the
`CalledProcessError` branch), a JSON decoding failure (the `JSONDecodeError`
branch), or a parsed JSON value.  JSON objects are modelled as the
association lists `json.loads` produces (duplicate keys already collapsed).
Exception messages of uncaught Python exceptions are abbreviated; only their
kind matters downstream. -/

/-- A JSON value as returned by `json.loads`.  Numbers are modelled as
integers, which is exact for every behaviour the source depends on. -/
inductive JValue where
  | jnull : JValue
  | jbool : Bool → JValue
  | jnum : Int → JValue
  | jstr : String → JValue
  | jarr : List JValue → JValue
  | jobj : List (String × JValue) → JValue

/-- A Python exception kind raised while traversing the inspect metadata. -/
inductive PyError where
  | valueError (msg : String)
  | typeError (msg : String)
  | keyError (msg : String)
  | indexError (msg : String)
  | attributeError (msg : String)
deriving DecidableEq

/-- The outcome of `subprocess.run(["podman", "inspect", ...], check=True)`
followed by `json.loads`. -/
inductive InspectResult where
  | procError (msg : String)
  | jsonError (msg : String)
  | parsed (v : JValue)

/-- Python truthiness of a JSON value. -/
def jTruthy : JValue → Bool
  | .jnull => false
  | .jbool b => b
  | .jnum n => n ≠ 0
  | .jstr s => !s.isEmpty
  | .jarr xs => !xs.isEmpty
  | .jobj fs => !fs.isEmpty

/-- Python `==` between a JSON value and a string (used by list membership). -/
def jEqStr (v : JValue) (s : String) : Bool :=
  match v with
  | .jstr t => t = s
  | _ => false

/-- Python `key in v`: key membership for dicts, element membership for
lists, substring search for strings, `TypeError` otherwise. -/
def jContainsKey (v : JValue) (key : String) : Except PyError Bool :=
  match v with
  | .jobj fs => Except.ok (fs.any (fun p => p.1 = key))
  | .jarr xs => Except.ok (xs.any (fun x => jEqStr x key))
  | .jstr s => Except.ok (pyIn key s)
  | _ => Except.error (PyError.typeError "argument is not iterable")

/-- Python `v[0]`: first element of a list, first character of a string,
`KeyError` for a dict, `TypeError` otherwise. -/
def jIndex0 (v : JValue) : Except PyError JValue :=
  match v with
  | .jarr (x :: _) => Except.ok x
  | .jarr [] => Except.error (PyError.indexError "list index out of range")
  | .jstr s =>
    match s.data with
    | c :: _ => Except.ok (JValue.jstr (String.mk [c]))
    | [] => Except.error (PyError.indexError "string index out of range")
  | .jobj _ => Except.error (PyError.keyError "0")
  | _ => Except.error (PyError.typeError "object is not subscriptable")

/-- Python `v[key]` for a string key: dict lookup, `TypeError` for lists and
strings, `TypeError` otherwise. -/
def jGetItem (v : JValue) (key : String) : Except PyError JValue :=
  match v with
  | .jobj fs =>
    match fs.find? (fun p => p.1 = key) with
    | some p => Except.ok p.2
    | none => Except.error (PyError.keyError key)
  | .jstr _ => Except.error (PyError.typeError "string indices must be integers")
  | .jarr _ => Except.error (PyError.typeError "list indices must be integers")
  | _ => Except.error (PyError.typeError "object is not subscriptable")

/-- Python iteration `for var in v`: the elements of a list, the characters
of a string (as one-character strings), the keys of a dict, `TypeError`
otherwise. -/
def jIterElems (v : JValue) : Except PyError (List JValue) :=
  match v with
  | .jarr xs => Except.ok xs
  | .jstr s => Except.ok (s.data.map (fun c => JValue.jstr (String.mk [c])))
  | .jobj fs => Except.ok (fs.map (fun p => JValue.jstr p.1))
  | _ => Except.error (PyError.typeError "object is not iterable")

/-- The `for var in env_variables` loop of `get_shell_env`: each entry is
unpacked by `key, value = var.split('=', 1)` and the value of the first entry
whose key is `SHELL` is returned; a non-string entry or an entry without
`'='` raises. -/
def findShell : List JValue → Except PyError (Option String)
  | [] => Except.ok none
  | v :: rest =>
    match v with
    | .jstr s =>
      match splitOnceEq s.data with
      | some (k, val) =>
        if String.mk k = "SHELL" then Except.ok (some (String.mk val))
        else findShell rest
      | none =>
        Except.error (PyError.valueError "not enough values to unpack (expected 2, got 1)")
    | _ => Except.error (PyError.attributeError "object has no attribute split")

/-- The guarded extraction
`if inspect_data and 'Config' in inspect_data[0] and 'Env' in inspect_data[0]['Config']`
of `get_shell_env`: the `Env` value when the whole condition holds, the
initial empty list when a conjunct is false, and the propagated exception
when evaluating a conjunct raises. -/
def extractEnvList (data : JValue) : Except PyError JValue :=
  if !jTruthy data then Except.ok (JValue.jarr [])
  else
    match jIndex0 data with
    | Except.error e => Except.error e
    | Except.ok e0 =>
      match jContainsKey e0 "Config" with
      | Except.error e => Except.error e
      | Except.ok hasConfig =>
        if !hasConfig then Except.ok (JValue.jarr [])
        else
          match jGetItem e0 "Config" with
          | Except.error e => Except.error e
          | Except.ok cfg =>
            match jContainsKey cfg "Env" with
            | Except.error e => Except.error e
            | Except.ok hasEnv =>
              if !hasEnv then Except.ok (JValue.jarr [])
              else jGetItem cfg "Env"

/-- Function `get_shell_env` from `containerized/__main__.py`.  The `try` block catches
only `CalledProcessError` and `JSONDecodeError` (printing a message and
returning `None`); any other exception raised while traversing the metadata
propagates to the caller as an `Except.error`. -/
def get_shell_env (image_name : String) (r : InspectResult) :
    List Event × Except PyError (Option String) :=
  let inspectCmd := Event.exec ["podman", "inspect", image_name]
  match r with
  | .procError e =>
    ([inspectCmd, Event.out ("Error running podman inspect: " ++ e ++ "\n")],
      Except.ok none)
  | .jsonError e =>
    ([inspectCmd, Event.out ("Error decoding JSON: " ++ e ++ "\n")], Except.ok none)
  | .parsed data =>
    match extractEnvList data with
    | Except.error e => ([inspectCmd], Except.error e)
    | Except.ok ev =>
      match jIterElems ev with
      | Except.error e => ([inspectCmd], Except.error e)
      | Except.ok vars =>
        match findShell vars with
        | Except.error e => ([inspectCmd], Except.error e)
        | Except.ok res => ([inspectCmd], Except.ok res)

/-! ## Running and pruning -/

/-- Function `run_podman_container` from `containerized/__main__.py`: prints the mount
notice and spawns `podman run`.  An empty entrypoint string or an empty
argument list is falsy in Python and therefore contributes nothing, exactly
as `if entrypoint:` and `if additional_args:` behave. -/
def run_podman_container (image_name mount_directory : String)
    (additional_podman_args : List String) (additional_args : Option (List String))
    (entrypoint : Option String) : List Event :=
  let base := ["podman", "run", "-it", "--rm", "-v", mount_directory ++ ":/mnt"] ++
    additional_podman_args
  let withEntry :=
    match entrypoint with
    | some e => if e.isEmpty then base else base ++ ["--entrypoint", e]
    | none => base
  let withImage := withEntry ++ [image_name]
  let run_command :=
    match additional_args with
    | some as => if as.isEmpty then withImage else withImage ++ as
    | none => withImage
  [Event.out (mount_directory ++ " is mounted at /mnt\n"), Event.exec run_command]

/-- Function `prune_image` from `containerized/__main__.py`.  The removal subprocess is
abstracted by its exit status and captured standard error; the function
prints and returns in every case (it has no raise). -/
def prune_image (pruneRc : Int) (pruneStderr : String) (image_name : String) :
    List Event :=
  [Event.out ("Pruning image " ++ image_name ++ "...\n"),
    Event.exec ["podman", "rmi", image_name]] ++
  (if pruneRc = 0 then
    [Event.out ("Image " ++ image_name ++ " removed successfully.\n")]
  else
    [Event.out ("Error pruning image " ++ image_name ++ ": " ++ pruneStderr ++ "\n")])

/-! ## The command dispatcher (`main`) -/

/-- The loop of `main` that computes `command_index`: starting from index 1
with `expect_arg_value = False`, each argument that is an option or an
expected option value advances the index and toggles the flag; the first
other argument stops the walk. -/
def commandIndexGo : List String → Nat → Bool → Nat
  | [], idx, _ => idx
  | a :: rest, idx, expect =>
    if expect || pyStartswith a "-" then commandIndexGo rest (idx + 1) (!expect)
    else idx

/-- The `sys.argv` rewrite of `main`: when the token at `command_index` exists
and is not a known sub-command name, insert `run` before it. -/
def adjustArgv (argv : List String) : List String :=
  let ci := commandIndexGo (argv.drop 1) 1 false
  match argv.get? ci with
  | some c =>
    if c = "shell" || c = "prune" || c = "run" then argv
    else argv.take ci ++ "run" :: argv.drop ci
  | none => argv

/-- The namespace produced by `parser.parse_args()` for the fields the
program reads. -/
structure ParsedArgs where
  command : Option String
  base_name : String
  args : List String
  directory : String
  volume : List String
deriving DecidableEq

/-- Consumption of the global options `-d` and `--directory` (value stored,
last occurrence wins) and `-v` and `--volume` (values appended) ahead of the
sub-command token; `none` models an argparse parse error or an invocation
shape outside the modelled fragment. -/
def parseOpts (dir : String) (vols : List String) :
    List String → Option (String × List String × List String)
  | [] => some (dir, vols, [])
  | t :: rest =>
    if t = "-d" || t = "--directory" then
      match rest with
      | v :: rest2 => parseOpts v vols rest2
      | [] => none
    else if t = "-v" || t = "--volume" then
      match rest with
      | v :: rest2 => parseOpts dir (vols ++ [v]) rest2
      | [] => none
    else if pyStartswith t "-" then none
    else some (dir, vols, t :: rest)

/-- The argparse configuration of `main` on the (already rewritten) argument
list after the program name: global options, then one of the three
sub-commands with its `base_name`, with `run` additionally taking the
remaining tokens as `args` (the `argparse.REMAINDER` field).  The directory
defaults to `os.getcwd()`.  `none` models an argparse error exit or an
invocation outside the modelled fragment. -/
def parseArgs (cwd : String) (tokens : List String) : Option ParsedArgs :=
  match parseOpts cwd [] tokens with
  | none => none
  | some (dir, vols, rest) =>
    match rest with
    | [] => none
    | cmd :: rest2 =>
      if cmd = "shell" || cmd = "prune" then
        match rest2 with
        | [bn] => some ⟨some cmd, bn, [], dir, vols⟩
        | _ => none
      else if cmd = "run" then
        match rest2 with
        | bn :: rest3 => some ⟨some "run", bn, rest3, dir, vols⟩
        | [] => none
      else none

/-- The world the process runs in: the working directory, the filesystem
(`os.path.abspath`, `os.path.isdir`, `os.path.exists`), and the behaviour of
the external `podman` invocations. -/
structure Env where
  cwd : String
  abspath : String → String
  isdir : String → Bool
  fileExists : String → Bool
  buildLog : List String
  buildRc : Int
  inspect : InspectResult
  pruneRc : Int
  pruneStderr : String

/-- Python `str(e)` for the modelled exception kinds (`KeyError` reprs its
key). -/
def PyError.str : PyError → String
  | .valueError m => m
  | .typeError m => m
  | .keyError m => "\x27" ++ m ++ "\x27"
  | .indexError m => m
  | .attributeError m => m

/-- Function `main` from `containerized/__main__.py`: rewrite `sys.argv`, parse, check
the directory (printing the error and returning normally when it is
missing), then run the `try` block; an exception raised there is printed
with the `Error:` prefix and re-raised, which the model records as an
`Except.error` (a non-zero process exit).  `Except.ok` is a normal return
from `main`, i.e. process exit status 0. -/
def mainModel (env : Env) (argv : List String) : List Event × Except String Unit :=
  let argv2 := adjustArgv argv
  match parseArgs env.cwd (argv2.drop 1) with
  | none => ([], Except.error "argparse usage error")
  | some a =>
    let directory := env.abspath a.directory
    if !env.isdir directory then
      ([Event.out ("Error: " ++ directory ++ " is not a valid directory.\n")],
        Except.ok ())
    else
      match find_containerfile env.fileExists directory a.base_name with
      | Except.error e =>
        ([Event.out ("Error: " ++ e ++ "\n")], Except.error e)
      | Except.ok containerfile_path =>
        let image_name := get_image_name a.base_name
        if a.command = some "prune" then
          (prune_image env.pruneRc env.pruneStderr image_name, Except.ok ())
        else
          let b := build_podman_image containerfile_path directory image_name
            env.buildLog env.buildRc
          match b.2 with
          | Except.error e =>
            (b.1 ++ [Event.out ("Error: " ++ e ++ "\n")], Except.error e)
          | Except.ok _ =>
            let podman_args := (a.volume.map (fun v => ["-v", v])).flatten
            if a.command = some "shell" then
              let s := get_shell_env image_name env.inspect
              match s.2 with
              | Except.error e =>
                (b.1 ++ s.1 ++ [Event.out ("Error: " ++ e.str ++ "\n")],
                  Except.error e.str)
              | Except.ok shellOpt =>
                let default_shell := shellOpt.getD "/bin/sh"
                (b.1 ++ s.1 ++
                  run_podman_container image_name directory podman_args none
                    (some default_shell),
                  Except.ok ())
            else
              (b.1 ++
                run_podman_container image_name directory podman_args (some a.args)
                  none,
                Except.ok ())

/-! ## General lemmas about the scanner and the string primitives -/

/-- The lines collected in `full_output` followed by the lines left in the
stream reconstitute the whole log: the loop buffers exactly what it
consumes. -/
theorem scanFrom_concat (st : Option String) (lines : List String) :
    (scanFrom st lines).1 ++ (scanFrom st lines).2.2 = lines := by
  induction lines generalizing st with
  | nil => rfl
  | cons line rest ih =>
    cases hb : scanBreak st line with
    | true => simp [scanFrom, hb]
    | false => simp [scanFrom, hb, ih]

/-- When the whole stream is consumed without a break, nothing is left to
stream. -/
theorem scanFrom_rest_nil (st : Option String) (lines : List String)
    (h : (scanFrom st lines).2.1 = true) : (scanFrom st lines).2.2 = [] := by
  induction lines generalizing st with
  | nil => rfl
  | cons line rest ih =>
    cases hb : scanBreak st line with
    | true => simp [scanFrom, hb] at h
    | false =>
      simp only [scanFrom, hb, Bool.false_eq_true, if_false] at h ⊢
      exact ih _ h

/-- When the whole stream is consumed without a break, the buffer is the
whole log. -/
theorem scanFrom_buf_all (st : Option String) (lines : List String)
    (h : (scanFrom st lines).2.1 = true) : (scanFrom st lines).1 = lines := by
  have hc := scanFrom_concat st lines
  rw [scanFrom_rest_nil st lines h, List.append_nil] at hc
  exact hc

/-- Scanning a concatenation whose first half is consumed without a break
continues into the second half from the folded `step` state. -/
theorem scanFrom_append (st : Option String) (xs ys : List String)
    (h : (scanFrom st xs).2.1 = true) :
    scanFrom st (xs ++ ys) =
      ((scanFrom st xs).1 ++ (scanFrom (xs.foldl scanStep st) ys).1,
        (scanFrom (xs.foldl scanStep st) ys).2.1,
        (scanFrom (xs.foldl scanStep st) ys).2.2) := by
  induction xs generalizing st with
  | nil => simp [scanFrom]
  | cons x xs ih =>
    cases hb : scanBreak st x with
    | true => simp [scanFrom, hb] at h
    | false =>
      simp only [scanFrom, hb, Bool.false_eq_true, if_false] at h
      have hih := ih (scanStep st x) h
      simp only [List.cons_append, scanFrom, hb, Bool.false_eq_true, if_false,
        List.foldl_cons, List.append_eq, hih]

/-- A line beginning with `STEP` strips to a prefix of itself (there is no
leading whitespace to remove, so only a suffix is dropped). -/
theorem pyStrip_data_front (m : String) (h : pyStartswith m "STEP" = true) :
    (pyStrip m).data <+: m.data := by
  obtain ⟨t, ht⟩ := List.isPrefixOf_iff_prefix.mp h
  have hdrop : m.data.dropWhile isPySpace = m.data := by
    rw [← ht]
    rfl
  show (((m.data.dropWhile isPySpace).reverse.dropWhile isPySpace).reverse) <+: m.data
  rw [hdrop]
  have := List.reverse_prefix.mpr (List.dropWhile_suffix (l := m.data.reverse) isPySpace)
  rwa [List.reverse_reverse] at this

/-- A line beginning with `STEP` does not strip to the empty string. -/
theorem pyStrip_data_ne_nil (m : String) (h : pyStartswith m "STEP" = true) :
    (pyStrip m).data.isEmpty = false := by
  obtain ⟨t, ht⟩ := List.isPrefixOf_iff_prefix.mp h
  have hdrop : m.data.dropWhile isPySpace = m.data := by
    rw [← ht]
    rfl
  show ((((m.data.dropWhile isPySpace).reverse.dropWhile isPySpace).reverse).isEmpty) = false
  rw [hdrop]
  rw [List.isEmpty_eq_false, ne_eq, List.reverse_eq_nil_iff, List.dropWhile_eq_nil_iff]
  intro hall
  have hmem : 'S' ∈ m.data.reverse := by
    rw [List.mem_reverse, ← ht]
    simp
  have := hall 'S' hmem
  simp [isPySpace] at this

/-- If the stripped form of a `STEP` line begins with a pattern, so does the
line itself. -/
theorem pyStartswith_of_pyStrip (m pat : String) (hm : pyStartswith m "STEP" = true)
    (h : pyStartswith (pyStrip m) pat = true) : pyStartswith m pat = true := by
  rw [pyStartswith, List.isPrefixOf_iff_prefix] at h ⊢
  exact h.trans (pyStrip_data_front m hm)

/-- Splitting `key ++ "=" ++ value` on the first `'='` recovers the pair when
the key itself contains no `'='`. -/
theorem splitOnceEq_append (k v : List Char) (h : k.all (fun c => c ≠ '=') = true) :
    splitOnceEq (k ++ '=' :: v) = some (k, v) := by
  induction k with
  | nil => simp [splitOnceEq]
  | cons a t ih =>
    simp only [List.all_cons, Bool.and_eq_true, decide_eq_true_eq] at h
    simp only [List.cons_append, splitOnceEq, if_neg h.1, List.append_eq, ih h.2]

/-- Two pointwise-equal predicates give the same `List.all`. -/
theorem all_congr_mem {α : Type} (l : List α) (f g : α → Bool)
    (h : ∀ c ∈ l, f c = g c) : l.all f = l.all g := by
  induction l with
  | nil => rfl
  | cons a t ih =>
    simp only [List.all_cons, h a (by simp)]
    rw [ih (fun c hc => h c (by simp [hc]))]

/-- On ASCII characters the character class accepted by `is_valid_basename`
(Python lowercase, Python digit, dash or period) coincides with the
specification's class `[a-z0-9.-]`. -/
theorem charClass_ascii (c : Char) (h : c.toNat ≤ 127) :
    (pyIslower c || pyIsdigit c || c = '-' || c = '.') =
      ((0x61 ≤ c.toNat && c.toNat ≤ 0x7A) || (0x30 ≤ c.toNat && c.toNat ≤ 0x39) ||
        c = '.' || c = '-') := by
  rw [Bool.eq_iff_iff]
  simp only [pyIslower, pyIsdigit, Bool.or_eq_true, Bool.and_eq_true, decide_eq_true_eq]
  constructor
  · rintro (((h1 | h1) | h1) | h1)
    · rcases h1 with h2 | h2 | h2 | h2 | h2 | h2
      · exact Or.inl (Or.inl (Or.inl h2))
      all_goals exact (False.elim (by omega))
    · rcases h1 with h2 | h2 | h2 | h2
      · exact Or.inl (Or.inl (Or.inr h2))
      all_goals exact (False.elim (by omega))
    · exact Or.inr h1
    · exact Or.inl (Or.inr h1)
  · rintro (((h1 | h1) | h1) | h1)
    · exact Or.inl (Or.inl (Or.inl (Or.inl h1)))
    · exact Or.inl (Or.inl (Or.inr (Or.inl h1)))
    · exact Or.inr h1
    · exact Or.inl (Or.inr h1)

/-- On strings of ASCII characters, `is_valid_basename` agrees with the
specification's rule. -/
theorem valid_eq_spec_ascii (s : String) (h : ∀ c ∈ s.data, c.toNat ≤ 127) :
    is_valid_basename s = specNameRule s := by
  unfold is_valid_basename specNameRule
  cases hlen : (1 ≤ s.length && s.length ≤ 128) with
  | false => simp [hlen]
  | true =>
    simp only [hlen, Bool.not_true, Bool.false_eq_true, if_false, Bool.true_and]
    exact all_congr_mem _ _ _ (fun c hc => charClass_ascii c (h c hc))

/-- Every string accepted by the specification's rule is accepted by
`is_valid_basename` (such strings are automatically ASCII). -/
theorem spec_imp_valid (s : String) (h : specNameRule s = true) :
    is_valid_basename s = true := by
  have hascii : ∀ c ∈ s.data, c.toNat ≤ 127 := by
    intro c hc
    have hall : ∀ c ∈ s.data,
        ((0x61 ≤ c.toNat && c.toNat ≤ 0x7A) || (0x30 ≤ c.toNat && c.toNat ≤ 0x39) ||
          c = '.' || c = '-') = true := by
      unfold specNameRule at h
      simp only [Bool.and_eq_true, List.all_eq_true] at h
      exact fun c hc => h.2 c hc
    have hc2 := hall c hc
    simp only [Bool.or_eq_true, Bool.and_eq_true, decide_eq_true_eq] at hc2
    rcases hc2 with ((h1 | h1) | h1) | h1
    · omega
    · omega
    · subst h1; decide
    · subst h1; decide
  rw [valid_eq_spec_ascii s hascii, h]

/-- Evaluating `findShell` on a rendered list of well-formed `KEY=VALUE` entries returns
the value of the first entry whose key is `SHELL`. -/
theorem findShell_entries (entries : List (String × String))
    (h : ∀ p ∈ entries, p.1.data.all (fun c => c ≠ '=') = true) :
    findShell (entries.map (fun p => JValue.jstr (p.1 ++ "=" ++ p.2))) =
      Except.ok ((entries.find? (fun p => p.1 = "SHELL")).map Prod.snd) := by
  induction entries with
  | nil => rfl
  | cons p t ih =>
    have hdata : (p.1 ++ "=" ++ p.2).data = p.1.data ++ '=' :: p.2.data := by
      rw [String.data_append, String.data_append]
      simp
    have hsplit : splitOnceEq (p.1 ++ "=" ++ p.2).data = some (p.1.data, p.2.data) := by
      rw [hdata]
      exact splitOnceEq_append _ _ (h p (by simp))
    have hmk1 : String.mk p.1.data = p.1 := rfl
    have hmk2 : String.mk p.2.data = p.2 := rfl
    simp only [List.map_cons, findShell, hsplit, hmk1, hmk2]
    by_cases hk : p.1 = "SHELL"
    · simp [List.find?_cons, hk]
    · simp only [List.find?_cons, hk, if_neg hk, decide_False, Bool.false_eq_true]
      exact ih (fun q hq => h q (by simp [hq]))

/-- The inspect metadata podman actually emits for an image whose `Env` list
is the rendered `KEY=VALUE` entries (the external contract of the inspect
command): an array with one element carrying `Config.Env`. -/
def mkInspectData (entries : List (String × String)) : JValue :=
  JValue.jarr [JValue.jobj [("Config", JValue.jobj [("Env",
    JValue.jarr (entries.map (fun p => JValue.jstr (p.1 ++ "=" ++ p.2))))])]]

/-- On well-formed inspect metadata `get_shell_env` returns the value of the
first `SHELL` entry, and `none` when there is no such entry. -/
theorem get_shell_env_entries (tag : String) (entries : List (String × String))
    (h : ∀ p ∈ entries, p.1.data.all (fun c => c ≠ '=') = true) :
    get_shell_env tag (InspectResult.parsed (mkInspectData entries)) =
      ([Event.exec ["podman", "inspect", tag]],
        Except.ok ((entries.find? (fun p => p.1 = "SHELL")).map Prod.snd)) := by
  have hext : extractEnvList (mkInspectData entries) =
      Except.ok (JValue.jarr (entries.map (fun p => JValue.jstr (p.1 ++ "=" ++ p.2)))) :=
    rfl
  have h2 := findShell_entries entries h
  simp only [get_shell_env, hext, jIterElems, h2]

/-- A non-zero build exit always yields the branch output followed by a dump
of the full buffer and a raised `RuntimeError` naming the tag. -/
theorem build_podman_image_failed (path ctx tag : String) (log : List String)
    (rc : Int) (hrc : rc ≠ 0) :
    build_podman_image path ctx tag log rc =
      (Event.exec ["podman", "build", "-f", path, "-t", tag, ctx] ::
        (if (scanFrom none log).2.1 then
          [Event.out ("Nothing to do to build image " ++ tag ++ ". Using cached version.\n")]
        else
          Event.out ("Building image from " ++ path ++ " as " ++ tag ++ ":\n") ::
            Event.out (String.join (scanFrom none log).1) ::
            (scanFrom none log).2.2.map Event.out) ++
        (scanFrom none log).1.map Event.out,
        Except.error ("Failed to build image " ++ tag ++ ".")) := by
  unfold build_podman_image
  rw [if_neg hrc]
  cases hcu : (scanFrom none log).2.1 <;> simp [hcu]

/-! ## The claims -/

/-- C1, counterexample.  On the log `STEP 1/3`, `Pulling image...`, `STEP
2/3`, `--> Using cache`, `STEP 3/3`, `--> Using cache` the heuristic does
NOT end with `cache_used = true`: the non-STEP line following the step-1
marker triggers the break, so the heuristic prints the header and the whole
log instead of the one-line summary.  This refutes the claim that this log
is suppressed. -/
theorem C1_cex :
    (scanFrom none ["STEP 1/3\n", "Pulling image...\n", "STEP 2/3\n",
      "--> Using cache\n", "STEP 3/3\n", "--> Using cache\n"]).2.1 = false ∧
    build_podman_image "app.Containerfile" "/ctx" "app:latest"
        ["STEP 1/3\n", "Pulling image...\n", "STEP 2/3\n", "--> Using cache\n",
          "STEP 3/3\n", "--> Using cache\n"] 0 =
      ([Event.exec ["podman", "build", "-f", "app.Containerfile", "-t", "app:latest", "/ctx"],
        Event.out "Building image from app.Containerfile as app:latest:\n",
        Event.out "STEP 1/3\nPulling image...\n",
        Event.out "STEP 2/3\n", Event.out "--> Using cache\n",
        Event.out "STEP 3/3\n", Event.out "--> Using cache\n"], Except.ok ()) :=
  ⟨rfl, rfl⟩

/-- C1, amended.  A non-STEP line directly after the step-1 marker sets
`cache_used = false` (the code treats any step-1 chatter as a download), so
the quoted log is shown in full; the log without that extra line (`STEP
1/3`, `STEP 2/3`, `--> Using cache`, `STEP 3/3`, `--> Using cache`) is the
one that ends with `cache_used = true` and prints only the one-line
"Nothing to do" summary. -/
theorem C1_amended_thm :
    (scanFrom none ["STEP 1/3\n", "Pulling image...\n", "STEP 2/3\n",
      "--> Using cache\n", "STEP 3/3\n", "--> Using cache\n"]).2.1 = false ∧
    (scanFrom none ["STEP 1/3\n", "STEP 2/3\n", "--> Using cache\n",
      "STEP 3/3\n", "--> Using cache\n"]).2.1 = true ∧
    build_podman_image "app.Containerfile" "/ctx" "app:latest"
        ["STEP 1/3\n", "STEP 2/3\n", "--> Using cache\n", "STEP 3/3\n",
          "--> Using cache\n"] 0 =
      ([Event.exec ["podman", "build", "-f", "app.Containerfile", "-t", "app:latest", "/ctx"],
        Event.out "Nothing to do to build image app:latest. Using cached version.\n"],
        Except.ok ()) :=
  ⟨rfl, rfl, rfl⟩

/-- C3, counterexample.  The validator accepts the single-character string
`é` (U+00E9): Python `str.islower()` is true for it, although it does not
match `[a-z0-9.-]{1,128}`.  This refutes the claim that every string other
than the regular expression's matches is rejected. -/
theorem C3_cex : is_valid_basename "é" = true ∧ specNameRule "é" = false := by
  decide

/-- C3, amended.  Every string matching `[a-z0-9.-]{1,128}` is accepted, and
on ASCII strings the validator agrees exactly with the regular expression;
outside ASCII the validator additionally accepts Python's non-ASCII
lowercase letters and digits. -/
theorem C3_amended_thm (s : String) :
    (specNameRule s = true → is_valid_basename s = true) ∧
    ((∀ c ∈ s.data, c.toNat ≤ 127) → is_valid_basename s = specNameRule s) :=
  ⟨spec_imp_valid s, valid_eq_spec_ascii s⟩

/-- C3, witness: the amended theorem applied to concrete strings. -/
theorem C3_amended_witness :
    is_valid_basename "tool-1.2" = true ∧
    is_valid_basename "Tool_X" = specNameRule "Tool_X" :=
  ⟨(C3_amended_thm "tool-1.2").1 (by decide),
    (C3_amended_thm "Tool_X").2 (by decide)⟩

/-- C8, counterexample.  The `get_image_name` of
`buildcontainer_tool/__main__.py` (cited as a source of the claim) prepends
`build_`, so its result is not `base_name + ":latest"`. -/
theorem C8_cex :
    BuildTool.get_image_name "mything" = "build_mything:latest" ∧
    ¬ BuildTool.get_image_name "mything" = "mything" ++ ":latest" := by
  decide

/-- C8, amended.  In `containerized/__main__.py` the image name is always
`base_name + ":latest"` and the function is a pure function of its argument
(so two calls with the same base name are equal); the
`buildcontainer_tool/__main__.py` variant instead always returns
`"build_" + base_name + ":latest"`. -/
theorem C8_amended_thm (base_name : String) :
    get_image_name base_name = base_name ++ ":latest" ∧
    get_image_name base_name = get_image_name base_name ∧
    BuildTool.get_image_name base_name = "build_" ++ base_name ++ ":latest" :=
  ⟨rfl, rfl, rfl⟩

/-- C4, counterexample.  On metadata that parses as JSON but contains a
malformed `Env` entry without `=`, `get_shell_env` does not return `None`:
the tuple unpacking of `var.split("=", 1)` raises a `ValueError` that is not
caught by the `except` clauses and propagates to the caller.  This refutes
the claim that malformed metadata never raises. -/
theorem C4_cex :
    get_shell_env "app:latest" (InspectResult.parsed (JValue.jarr [JValue.jobj
        [("Config", JValue.jobj [("Env", JValue.jarr [JValue.jstr "MALFORMED"])])]])) =
      ([Event.exec ["podman", "inspect", "app:latest"]],
        Except.error (PyError.valueError "not enough values to unpack (expected 2, got 1)")) :=
  rfl

/-- C4, amended.  `get_shell_env` returns the value after the first `=` of
the first `Env` entry whose key is `SHELL`, and returns `None` without
raising when no `SHELL` entry is present among well-formed `KEY=VALUE`
entries, when the inspection subprocess fails, or when the output fails to
parse as JSON; metadata that parses as JSON but is structurally malformed
(for example an `Env` entry without `=`) instead raises an uncaught
exception to the caller. -/
theorem C4_amended_thm (tag msg : String) (entries : List (String × String))
    (h : ∀ p ∈ entries, p.1.data.all (fun c => c ≠ '=') = true) :
    get_shell_env tag (InspectResult.procError msg) =
      ([Event.exec ["podman", "inspect", tag],
        Event.out ("Error running podman inspect: " ++ msg ++ "\n")], Except.ok none) ∧
    get_shell_env tag (InspectResult.jsonError msg) =
      ([Event.exec ["podman", "inspect", tag],
        Event.out ("Error decoding JSON: " ++ msg ++ "\n")], Except.ok none) ∧
    get_shell_env tag (InspectResult.parsed (mkInspectData entries)) =
      ([Event.exec ["podman", "inspect", tag]],
        Except.ok ((entries.find? (fun p => p.1 = "SHELL")).map Prod.snd)) :=
  ⟨rfl, rfl, get_shell_env_entries tag entries h⟩

/-- C4, witness: the amended theorem applied to the spec's example
environment with and without a `SHELL` entry. -/
theorem C4_amended_witness :
    get_shell_env "app:latest" (InspectResult.parsed (mkInspectData
        [("PATH", "/usr/bin"), ("SHELL", "/bin/bash")])) =
      ([Event.exec ["podman", "inspect", "app:latest"]], Except.ok (some "/bin/bash")) ∧
    get_shell_env "app:latest" (InspectResult.parsed (mkInspectData
        [("PATH", "/usr/bin")])) =
      ([Event.exec ["podman", "inspect", "app:latest"]], Except.ok none) :=
  ⟨(C4_amended_thm "app:latest" "" [("PATH", "/usr/bin"), ("SHELL", "/bin/bash")]
      (by decide)).2.2,
    (C4_amended_thm "app:latest" "" [("PATH", "/usr/bin")] (by decide)).2.2⟩

/-- C10: throughout the scanning loop the buffer holds exactly the consumed
lines (buffer plus unconsumed stream reconstitutes the log); when the whole
log is consumed nothing is left to stream; and on a failed build the dumped
section of the output is exactly the buffered prefix, never the lines
streamed after the trigger. -/
theorem C10_thm (path ctx tag : String) (log : List String) (rc : Int) :
    (scanFrom none log).1 ++ (scanFrom none log).2.2 = log ∧
    ((scanFrom none log).2.1 = true → (scanFrom none log).2.2 = []) ∧
    (rc ≠ 0 → (build_podman_image path ctx tag log rc).1 =
      Event.exec ["podman", "build", "-f", path, "-t", tag, ctx] ::
        (if (scanFrom none log).2.1 then
          [Event.out ("Nothing to do to build image " ++ tag ++ ". Using cached version.\n")]
        else
          Event.out ("Building image from " ++ path ++ " as " ++ tag ++ ":\n") ::
            Event.out (String.join (scanFrom none log).1) ::
            (scanFrom none log).2.2.map Event.out) ++
        (scanFrom none log).1.map Event.out) := by
  refine ⟨scanFrom_concat none log, scanFrom_rest_nil none log, fun hrc => ?_⟩
  rw [build_podman_image_failed path ctx tag log rc hrc]

/-- C10, witness: the invariant at a log whose scan breaks at the second
line, with a failing exit status, and the full-consumption conjunct at a
fully cached log. -/
theorem C10_witness :
    (scanFrom none ["STEP 1/2\n", "oops\n", "tail\n"]).1 ++
      (scanFrom none ["STEP 1/2\n", "oops\n", "tail\n"]).2.2 =
      ["STEP 1/2\n", "oops\n", "tail\n"] ∧
    (build_podman_image "app.Containerfile" "/ctx" "app:latest"
        ["STEP 1/2\n", "oops\n", "tail\n"] 1).1 =
      [Event.exec ["podman", "build", "-f", "app.Containerfile", "-t", "app:latest", "/ctx"],
        Event.out "Building image from app.Containerfile as app:latest:\n",
        Event.out "STEP 1/2\noops\n",
        Event.out "tail\n",
        Event.out "STEP 1/2\n", Event.out "oops\n"] ∧
    (scanFrom none ["STEP 1/2\n", "STEP 2/2\n", "--> Using cache\n"]).2.2 = [] :=
  ⟨(C10_thm "app.Containerfile" "/ctx" "app:latest" ["STEP 1/2\n", "oops\n", "tail\n"] 1).1,
    (C10_thm "app.Containerfile" "/ctx" "app:latest" ["STEP 1/2\n", "oops\n", "tail\n"] 1).2.2
      (by decide),
    (C10_thm "app.Containerfile" "/ctx" "app:latest"
      ["STEP 1/2\n", "STEP 2/2\n", "--> Using cache\n"] 1).2.1 (by decide)⟩

/-- From any starting state, a log containing a non-step-1 marker directly
followed by a line without the cache marker never finishes with
`cache_used = true`: either an earlier line already triggered the break, or
this pair does. -/
theorem scanFrom_violation (st : Option String) (pre : List String) (m l : String)
    (post : List String)
    (hm : pyStartswith m "STEP" = true)
    (hm1 : pyStartswith m "STEP 1/" = false)
    (hl : pyIn "--> Using cache" l = false) :
    (scanFrom st (pre ++ m :: l :: post)).2.1 = false := by
  induction pre generalizing st with
  | nil =>
    cases hb : scanBreak st m with
    | true => simp [scanFrom, hb]
    | false =>
      have hns : pyStartswith (pyStrip m) "STEP 1/" = false := by
        cases hx : pyStartswith (pyStrip m) "STEP 1/" with
        | false => rfl
        | true =>
          rw [pyStartswith_of_pyStrip m _ hm hx] at hm1
          exact absurd hm1 (by simp)
      have hbreak : scanBreak (some (pyStrip m)) l = true := by
        simp only [scanBreak]
        rw [pyStrip_data_ne_nil m hm]
        simp [hl, hns]
      simp [scanFrom, hb, scanStep, hm, hbreak]
  | cons p pre ih =>
    cases hb : scanBreak st p with
    | true => simp [scanFrom, hb]
    | false => simp [scanFrom, hb, ih]

/-- C6: whenever the scan reaches a step marker other than step 1 (no break
occurred earlier, expressed by the prefix being fully consumed) and the next
line lacks `--> Using cache`, `cache_used` becomes false at that line; the
buffer then holds the log up to and including that line, and the build
prints the header naming the Containerfile and tag, replays the buffer, and
streams the remaining lines verbatim.  Independently of the prefix, such a
log always ends the scan with `cache_used = false` (the last conjunct). -/
theorem C6_thm (path ctx tag : String) (pre : List String) (m l : String)
    (post : List String)
    (hm : pyStartswith m "STEP" = true)
    (hm1 : pyStartswith m "STEP 1/" = false)
    (hl : pyIn "--> Using cache" l = false)
    (hpre : (scanFrom none (pre ++ [m])).2.1 = true) :
    scanFrom none (pre ++ m :: l :: post) = (pre ++ [m, l], false, post) ∧
    build_podman_image path ctx tag (pre ++ m :: l :: post) 0 =
      (Event.exec ["podman", "build", "-f", path, "-t", tag, ctx] ::
        Event.out ("Building image from " ++ path ++ " as " ++ tag ++ ":\n") ::
        Event.out (String.join (pre ++ [m, l])) :: post.map Event.out,
        Except.ok ()) ∧
    (∀ pre2 : List String, (scanFrom none (pre2 ++ m :: l :: post)).2.1 = false) := by
  have hstate : (pre ++ [m]).foldl scanStep none = some (pyStrip m) := by
    rw [List.foldl_append]
    simp [scanStep, hm]
  have hbuf : (scanFrom none (pre ++ [m])).1 = pre ++ [m] :=
    scanFrom_buf_all _ _ hpre
  have hns : pyStartswith (pyStrip m) "STEP 1/" = false := by
    cases hx : pyStartswith (pyStrip m) "STEP 1/" with
    | false => rfl
    | true =>
      rw [pyStartswith_of_pyStrip m _ hm hx] at hm1
      exact absurd hm1 (by simp)
  have hbreak : scanBreak (some (pyStrip m)) l = true := by
    simp only [scanBreak]
    rw [pyStrip_data_ne_nil m hm]
    simp [hl, hns]
  have hsplit : scanFrom (some (pyStrip m)) (l :: post) = ([l], false, post) := by
    unfold scanFrom
    rw [hbreak]
    simp
  have hscan : scanFrom none (pre ++ m :: l :: post) = (pre ++ [m, l], false, post) := by
    have happ := scanFrom_append none (pre ++ [m]) (l :: post) hpre
    rw [hstate, hsplit, hbuf] at happ
    rw [show pre ++ m :: l :: post = (pre ++ [m]) ++ l :: post by simp]
    rw [happ]
    simp
  refine ⟨hscan, ?_, fun pre2 => scanFrom_violation none pre2 m l post hm hm1 hl⟩
  unfold build_podman_image
  rw [hscan]
  simp

/-- C6, witness: the theorem at the log `STEP 1/3`, `STEP 2/3`, `RUN make`,
`copying...`, whose step-2 marker is followed by a line without the cache
marker. -/
theorem C6_witness :
    scanFrom none (["STEP 1/3\n"] ++ "STEP 2/3\n" :: "RUN make\n" :: ["copying...\n"]) =
      (["STEP 1/3\n"] ++ ["STEP 2/3\n", "RUN make\n"], false, ["copying...\n"]) ∧
    build_podman_image "app.Containerfile" "/ctx" "app:latest"
        (["STEP 1/3\n"] ++ "STEP 2/3\n" :: "RUN make\n" :: ["copying...\n"]) 0 =
      (Event.exec ["podman", "build", "-f", "app.Containerfile", "-t", "app:latest", "/ctx"] ::
        Event.out ("Building image from " ++ "app.Containerfile" ++ " as " ++
          "app:latest" ++ ":\n") ::
        Event.out (String.join (["STEP 1/3\n"] ++ ["STEP 2/3\n", "RUN make\n"])) ::
        ["copying...\n"].map Event.out,
        Except.ok ()) ∧
    (∀ pre2 : List String,
      (scanFrom none (pre2 ++ "STEP 2/3\n" :: "RUN make\n" :: ["copying...\n"])).2.1 =
        false) :=
  C6_thm "app.Containerfile" "/ctx" "app:latest" ["STEP 1/3\n"] "STEP 2/3\n" "RUN make\n"
    ["copying...\n"] (by decide) (by decide) (by decide) (by decide)

/-- C2, counterexample.  With a `--directory` that is not a directory, `main`
prints the `Error:` line and then executes a plain `return`: the model's
`Except.ok ()` is a normal return from `main`, so the process terminates
with exit status 0, not a non-zero code as the claim states. -/
theorem C2_cex :
    mainModel ⟨"/work", id, fun _ => false, fun _ => false, [], 0,
        InspectResult.procError "", 0, ""⟩
      ["containerized", "-d", "/nope", "run", "app"] =
      ([Event.out "Error: /nope is not a valid directory.\n"], Except.ok ()) :=
  rfl

/-- C2, amended.  For every invocation whose `--directory` argument does not
name an existing directory, the process prints the human-readable
`Error: <directory> is not a valid directory.` line and then terminates
normally with exit code 0, performing no further action. -/
theorem C2_amended_thm (env : Env) (argv : List String) (a : ParsedArgs)
    (hparse : parseArgs env.cwd ((adjustArgv argv).drop 1) = some a)
    (hdir : env.isdir (env.abspath a.directory) = false) :
    mainModel env argv =
      ([Event.out ("Error: " ++ env.abspath a.directory ++
        " is not a valid directory.\n")], Except.ok ()) := by
  simp only [mainModel, hparse]
  simp [hdir]

/-- C2, witness: the amended theorem at a concrete environment without the
requested directory. -/
theorem C2_amended_witness :
    mainModel ⟨"/work", id, fun _ => false, fun _ => false, [], 0,
        InspectResult.procError "", 0, ""⟩
      ["containerized", "-d", "/gone", "shell", "app"] =
      ([Event.out ("Error: " ++ "/gone" ++ " is not a valid directory.\n")],
        Except.ok ()) :=
  C2_amended_thm ⟨"/work", id, fun _ => false, fun _ => false, [], 0,
      InspectResult.procError "", 0, ""⟩
    ["containerized", "-d", "/gone", "shell", "app"]
    ⟨some "shell", "app", [], "/gone", []⟩ rfl rfl

/-- C7: the dispatcher inserts an implicit `run` before an unknown first
non-option token, so `tool -d /tmp mything foo bar` rewrites to exactly
`tool -d /tmp run mything foo bar`; both parse to the `run` command on base
name `mything` with trailing arguments `foo bar` and directory `/tmp`, and
the whole pipeline behaves identically on both in every environment. -/
theorem C7_thm :
    adjustArgv ["containerized", "-d", "/tmp", "mything", "foo", "bar"] =
      ["containerized", "-d", "/tmp", "run", "mything", "foo", "bar"] ∧
    adjustArgv ["containerized", "-d", "/tmp", "run", "mything", "foo", "bar"] =
      ["containerized", "-d", "/tmp", "run", "mything", "foo", "bar"] ∧
    (∀ cwd : String,
      parseArgs cwd
          ((adjustArgv ["containerized", "-d", "/tmp", "mything", "foo", "bar"]).drop 1) =
        some ⟨some "run", "mything", ["foo", "bar"], "/tmp", []⟩) ∧
    (∀ env : Env,
      mainModel env ["containerized", "-d", "/tmp", "mything", "foo", "bar"] =
        mainModel env ["containerized", "-d", "/tmp", "run", "mything", "foo", "bar"]) :=
  ⟨rfl, rfl, fun _ => rfl, fun _ => rfl⟩

/-- C5: a build whose subprocess exits with non-zero status always prints
the branch output followed by the entire buffered log (whatever the cache
state was) and raises a build-failure error naming the image tag; in `main`
this error is printed with the `Error:` prefix and re-raised, so the run
command terminates with a non-zero exit (the model's `Except.error`). -/
theorem C5_thm :
    (∀ (path ctx tag : String) (log : List String) (rc : Int), rc ≠ 0 →
      build_podman_image path ctx tag log rc =
        (Event.exec ["podman", "build", "-f", path, "-t", tag, ctx] ::
          (if (scanFrom none log).2.1 then
            [Event.out ("Nothing to do to build image " ++ tag ++
              ". Using cached version.\n")]
          else
            Event.out ("Building image from " ++ path ++ " as " ++ tag ++ ":\n") ::
              Event.out (String.join (scanFrom none log).1) ::
              (scanFrom none log).2.2.map Event.out) ++
          (scanFrom none log).1.map Event.out,
          Except.error ("Failed to build image " ++ tag ++ "."))) ∧
    (∀ (env : Env) (d bn : String),
      env.isdir (env.abspath d) = true →
      is_valid_basename bn = true →
      env.fileExists (path_join (env.abspath d) (bn ++ ".Containerfile")) = true →
      env.buildRc ≠ 0 →
      mainModel env ["containerized", "-d", d, "run", bn] =
        ((build_podman_image (path_join (env.abspath d) (bn ++ ".Containerfile"))
            (env.abspath d) (get_image_name bn) env.buildLog env.buildRc).1 ++
          [Event.out ("Error: " ++ ("Failed to build image " ++ get_image_name bn ++
            ".") ++ "\n")],
          Except.error ("Failed to build image " ++ get_image_name bn ++ "."))) := by
  constructor
  · exact build_podman_image_failed
  · intro env d bn hdir hbn hfile hrc
    have hparse : parseArgs env.cwd
        ((adjustArgv ["containerized", "-d", d, "run", bn]).drop 1) =
        some ⟨some "run", bn, [], d, []⟩ := rfl
    have hb := build_podman_image_failed
      (path_join (env.abspath d) (bn ++ ".Containerfile")) (env.abspath d)
      (get_image_name bn) env.buildLog env.buildRc hrc
    simp only [mainModel, hparse]
    simp only [find_containerfile, hbn, Bool.not_true, Bool.false_eq_true, if_false,
      hfile, if_true, hdir]
    simp [hb]

/-- C5, witness: a cached-looking log and a failing exit at the build level,
and a failing build driven through `main`. -/
theorem C5_witness :
    build_podman_image "app.Containerfile" "/ctx" "app:latest"
        ["STEP 1/1\n", "--> Using cache\n"] 1 =
      (Event.exec ["podman", "build", "-f", "app.Containerfile", "-t", "app:latest", "/ctx"] ::
        (if (scanFrom none ["STEP 1/1\n", "--> Using cache\n"]).2.1 then
          [Event.out ("Nothing to do to build image " ++ "app:latest" ++
            ". Using cached version.\n")]
        else
          Event.out ("Building image from " ++ "app.Containerfile" ++ " as " ++
            "app:latest" ++ ":\n") ::
            Event.out (String.join (scanFrom none ["STEP 1/1\n", "--> Using cache\n"]).1) ::
            (scanFrom none ["STEP 1/1\n", "--> Using cache\n"]).2.2.map Event.out) ++
        (scanFrom none ["STEP 1/1\n", "--> Using cache\n"]).1.map Event.out,
        Except.error ("Failed to build image " ++ "app:latest" ++ ".")) ∧
    mainModel ⟨"/work", id, fun _ => true, fun _ => true, ["boom\n"], 2,
        InspectResult.procError "", 0, ""⟩
      ["containerized", "-d", "/tmp", "run", "app"] =
      ((build_podman_image (path_join "/tmp" ("app" ++ ".Containerfile")) "/tmp"
          (get_image_name "app") ["boom\n"] 2).1 ++
        [Event.out ("Error: " ++ ("Failed to build image " ++ get_image_name "app" ++
          ".") ++ "\n")],
        Except.error ("Failed to build image " ++ get_image_name "app" ++ ".")) :=
  ⟨C5_thm.1 "app.Containerfile" "/ctx" "app:latest" ["STEP 1/1\n", "--> Using cache\n"] 1
      (by decide),
    C5_thm.2 ⟨"/work", id, fun _ => true, fun _ => true, ["boom\n"], 2,
        InspectResult.procError "", 0, ""⟩ "/tmp" "app" rfl (by decide) rfl (by decide)⟩

/-- C9: `prune_image` always prints the progress line, invokes `podman rmi`,
and prints either the success confirmation or the runtime's error text; it
never raises, and a `prune` command through `main` returns normally
(`Except.ok`, exit status 0) whatever the removal's exit status was. -/
theorem C9_thm :
    (∀ (rc : Int) (stderr tag : String),
      prune_image rc stderr tag =
        [Event.out ("Pruning image " ++ tag ++ "...\n"),
          Event.exec ["podman", "rmi", tag]] ++
        (if rc = 0 then [Event.out ("Image " ++ tag ++ " removed successfully.\n")]
          else [Event.out ("Error pruning image " ++ tag ++ ": " ++ stderr ++ "\n")])) ∧
    (∀ (env : Env) (d bn : String),
      env.isdir (env.abspath d) = true →
      is_valid_basename bn = true →
      env.fileExists (path_join (env.abspath d) (bn ++ ".Containerfile")) = true →
      mainModel env ["containerized", "-d", d, "prune", bn] =
        (prune_image env.pruneRc env.pruneStderr (get_image_name bn), Except.ok ())) := by
  constructor
  · intro rc stderr tag
    rfl
  · intro env d bn hdir hbn hfile
    have hparse : parseArgs env.cwd
        ((adjustArgv ["containerized", "-d", d, "prune", bn]).drop 1) =
        some ⟨some "prune", bn, [], d, []⟩ := rfl
    simp only [mainModel, hparse]
    simp only [find_containerfile, hbn, Bool.not_true, Bool.false_eq_true, if_false,
      hfile, if_true, hdir]

/-- C9, witness: a prune invocation through `main` in an environment whose
removal command fails, still returning normally. -/
theorem C9_witness :
    mainModel ⟨"/work", id, fun _ => true, fun _ => true, [], 0,
        InspectResult.procError "", 1, "image is in use"⟩
      ["containerized", "-d", "/tmp", "prune", "app"] =
      (prune_image 1 "image is in use" (get_image_name "app"), Except.ok ()) :=
  C9_thm.2 ⟨"/work", id, fun _ => true, fun _ => true, [], 0,
      InspectResult.procError "", 1, "image is in use"⟩ "/tmp" "app" rfl (by decide) rfl
